import Mathlib

/-!
Shallow embedding of the kvz_rtp / uvgRTP media-stream and RTCP code:
`media_stream` (src/unnamed/part_000) and the `rtcp` class (src/src/rtcp.hh),
together with the sender / receiver / payload-formatter behaviour that the
specification describes for the parts of the library whose implementation
files are not in the source tree.  Pointers are modelled as natural numbers
with 0 playing the role of the null pointer; machine integers are modelled
as `Int` / `Nat` with explicit reduction mod 2^16 where the sequence-number
counter wraps.
-/

namespace KvzRtp

/-- Error taxonomy of the library (`rtp_error_t` in util.hh, values used by
the translated functions). -/
inductive rtp_error_t where
  | RTP_OK
  | RTP_GENERIC_ERROR
  | RTP_INVALID_VALUE
  | RTP_SEND_ERROR
  | RTP_MEMORY_ERROR
deriving DecidableEq, Repr

open rtp_error_t

/-- Modelled from the spec: `RCC_LAST`, the upper bound of the recognized
numeric context-configuration flags (util.hh is not in the source tree; the
spec lists four recognized numeric parameters).  The claims depend only on
the bound being a fixed constant, not on its value. -/
def RCC_LAST : Int := 4

/-- Modelled from the spec: `RCE_LAST`, the upper bound of the recognized
boolean context-configuration flags (util.hh is not in the source tree; the
spec lists four recognized boolean flags). -/
def RCE_LAST : Int := 16

/-- The context configuration owned by a media stream (`ctx_config_`):
a word of boolean flags and a table of numeric values indexed by flag. -/
structure rtp_ctx_configuration where
  flags : Nat
  ctx_values : Int → Int

/-- State of the RTP receiver of a media stream, as far as the claims need
it.  `recv_hook` is the installed receive-hook function pointer (0 = null);
`frames` is the internal ring of reassembled frames awaiting a pull;
`hook_calls` counts hook invocations (the observable effect of dispatching
a frame to the hook). -/
structure receiver_state where
  recv_hook : Nat
  recv_hook_arg : Nat
  frames : List Nat
  hook_calls : Nat
deriving DecidableEq, Repr

/-- State of the RTP sender of a media stream: the 16-bit RTP sequence
number counter and the installed deallocation-hook pointer (0 = null). -/
structure sender_state where
  seq : Nat
  dealloc_hook : Nat
deriving DecidableEq, Repr

/-- The fields of `kvz_rtp::media_stream` the claims touch
(src/unnamed/part_000): address/ports/format/flags from the constructor,
the context configuration, the media-config pointer, and the owned sender
and receiver. -/
structure media_stream where
  fmt_ : Nat
  flags_ : Nat
  src_port_ : Nat
  dst_port_ : Nat
  ctx_config_ : rtp_ctx_configuration
  media_config_ : Nat
  sender_ : sender_state
  receiver_ : receiver_state

/-- Translation of `media_stream::configure_ctx(int flag, ssize_t value)`
(src/unnamed/part_000 lines 118-126): reject a negative or out-of-range
flag or a negative value with `RTP_INVALID_VALUE`; otherwise store
`ctx_values[flag] = value` and return `RTP_OK`. -/
def configure_ctx (s : media_stream) (flag value : Int) :
    rtp_error_t × media_stream :=
  if flag < 0 ∨ RCC_LAST ≤ flag ∨ value < 0 then
    (RTP_INVALID_VALUE, s)
  else
    (RTP_OK,
      { s with ctx_config_ :=
        { s.ctx_config_ with ctx_values :=
          fun f => if f = flag then value else s.ctx_config_.ctx_values f } })

/-- Translation of `media_stream::configure_ctx(int flag)`
(src/unnamed/part_000 lines 128-136): reject a negative or out-of-range
flag with `RTP_INVALID_VALUE`; otherwise OR the flag into the flags word
and return `RTP_OK`. -/
def configure_ctx_flag (s : media_stream) (flag : Int) :
    rtp_error_t × media_stream :=
  if flag < 0 ∨ RCE_LAST ≤ flag then
    (RTP_INVALID_VALUE, s)
  else
    (RTP_OK,
      { s with ctx_config_ :=
        { s.ctx_config_ with flags := s.ctx_config_.flags ||| flag.toNat } })

/-- Modelled from the spec: `receiver::install_recv_hook(arg, hook)`
(receiver.cc is not in the source tree) registers the callback and its
argument on the receiver. -/
def receiver_install_recv_hook (r : receiver_state) (arg hook : Nat) :
    receiver_state :=
  { r with recv_hook := hook, recv_hook_arg := arg }

/-- Modelled from the spec: `sender::install_dealloc_hook(hook)`
(sender.cc is not in the source tree) registers the deallocation callback
on the sender. -/
def sender_install_dealloc_hook (snd : sender_state) (hook : Nat) :
    sender_state :=
  { snd with dealloc_hook := hook }

/-- Translation of `media_stream::install_receive_hook(arg, hook)`
(src/unnamed/part_000 lines 88-96): a null hook pointer is rejected with
`RTP_INVALID_VALUE`; otherwise the hook is installed on the receiver and
`RTP_OK` is returned. -/
def install_receive_hook (s : media_stream) (arg hook : Nat) :
    rtp_error_t × media_stream :=
  if hook = 0 then
    (RTP_INVALID_VALUE, s)
  else
    (RTP_OK, { s with receiver_ := receiver_install_recv_hook s.receiver_ arg hook })

/-- Translation of `media_stream::install_deallocation_hook(hook)`
(src/unnamed/part_000 lines 98-106): a null hook pointer is rejected with
`RTP_INVALID_VALUE`; otherwise the hook is installed on the sender and
`RTP_OK` is returned. -/
def install_deallocation_hook (s : media_stream) (hook : Nat) :
    rtp_error_t × media_stream :=
  if hook = 0 then
    (RTP_INVALID_VALUE, s)
  else
    (RTP_OK, { s with sender_ := sender_install_dealloc_hook s.sender_ hook })

/-- Socket constants used by `init_connection` (values as on Linux; the
claims depend only on their identity). -/
def AF_INET : Nat := 2

def SOCK_DGRAM : Nat := 2

def INADDR_ANY : Nat := 0

def SOL_SOCKET : Nat := 1

def SO_REUSEADDR : Nat := 2

/-- One operation performed on the underlying socket, in program order. -/
inductive sock_op where
  | op_socket_create (family socktype proto : Nat)
  | op_setsockopt (level optname : Nat)
  | op_bind_addr (family addr port : Nat)
  | op_set_sockaddr (addr_out : Nat)
deriving DecidableEq, Repr

/-- Translation of `media_stream::init_connection()` (src/unnamed/part_000
lines 26-46) as a trace of socket operations together with its return value.  The two
fallible socket calls (`socket_.init` and `socket_.bind`) are given their
outcomes by the `init_err` / `bind_err` oracle arguments (`none` = the call
returned `RTP_OK`).  The `SO_REUSEADDR` block of the source is compiled out
(`#if 0`), so no `setsockopt` operation ever appears in the trace. -/
def init_connection (s : media_stream)
    (init_err bind_err : Option rtp_error_t) :
    rtp_error_t × List sock_op :=
  match init_err with
  | some e => (e, [sock_op.op_socket_create AF_INET SOCK_DGRAM 0])
  | none =>
    match bind_err with
    | some e =>
        (e, [sock_op.op_socket_create AF_INET SOCK_DGRAM 0,
             sock_op.op_bind_addr AF_INET INADDR_ANY s.src_port_])
    | none =>
        (RTP_OK, [sock_op.op_socket_create AF_INET SOCK_DGRAM 0,
                  sock_op.op_bind_addr AF_INET INADDR_ANY s.src_port_,
                  sock_op.op_set_sockaddr s.dst_port_])

/-- Modelled from the spec: the fragment-payload ceiling of the fragmenting
formatter (default 1400 octets). -/
def MAX_PAYLOAD : Nat := 1400

/-- The fragment-unit header the fragmenting formatter prepends to each
fragment: start flag, end flag, and the original unit type. -/
structure fu_header where
  s_bit : Bool
  e_bit : Bool
  fu_type : Nat
deriving DecidableEq, Repr

/-- One produced RTP datagram of a frame: an optional fragment-unit header
(`none` for a single opaque packet), the marker bit, and the payload
bytes. -/
structure datagram where
  fu : Option fu_header
  marker : Bool
  payload : List Nat
deriving DecidableEq, Repr

/-- Split a byte string into consecutive chunks of at most `MAX_PAYLOAD`
octets.  `fuel` bounds the recursion; `chunks_of` instantiates it with the
length of the input. -/
def chunk_run : Nat → List Nat → List (List Nat)
  | 0, _ => []
  | _ + 1, [] => []
  | fuel + 1, a :: rest =>
      ((a :: rest).take MAX_PAYLOAD) :: chunk_run fuel ((a :: rest).drop MAX_PAYLOAD)

def chunks_of (b : List Nat) : List (List Nat) :=
  chunk_run b.length b

/-- Modelled from the spec: wrap the chunks of an oversize frame in
fragment-unit datagrams.  The first fragment carries the start flag, the
last carries the end flag and marker=1, intermediate fragments carry
neither; all share the original unit type. -/
def fu_wrap (t : Nat) : Bool → List (List Nat) → List datagram
  | _, [] => []
  | first, [c] => [⟨some ⟨first, true, t⟩, true, c⟩]
  | first, c :: c2 :: rest =>
      ⟨some ⟨first, false, t⟩, false, c⟩ :: fu_wrap t false (c2 :: rest)

/-- Modelled from the spec: the fragmenting formatter (its implementation
file is not in the source tree).  An input that fits in the ceiling is sent
as one opaque packet with marker set; an oversize input is split into
fragments of at most `MAX_PAYLOAD` octets, each wrapped in a fragment-unit
header carrying the original unit type `t`. -/
def fragment (t : Nat) (b : List Nat) : List datagram :=
  if b.length ≤ MAX_PAYLOAD then
    [⟨none, true, b⟩]
  else
    fu_wrap t true (chunks_of b)

/-- Modelled from the spec: the depacketizer (its implementation file is
not in the source tree) reassembling the datagrams of one frame delivered
in sequence order: the payloads of the fragments are concatenated (a single
opaque packet's payload is the frame itself). -/
def depacketize (ds : List datagram) : List Nat :=
  (ds.map (fun d => d.payload)).foldr (· ++ ·) []

/-- Modelled from the spec: `sender::push_frame` (sender.cc is not in the
source tree).  An empty frame is rejected with `RTP_INVALID_VALUE` and
nothing is sent; otherwise the frame is routed through the fragmenting
formatter and one datagram is emitted per produced fragment, the sequence
number being post-incremented per datagram (mod 2^16).  The result carries
the return value, the updated sender and the list of sequence numbers put
on the wire, in emission order. -/
def sender_push_frame (snd : sender_state) (payload : List Nat) :
    rtp_error_t × sender_state × List Nat :=
  if payload = [] then
    (RTP_INVALID_VALUE, snd, [])
  else
    let k := (fragment 0 payload).length
    (RTP_OK,
     { snd with seq := (snd.seq + k) % 65536 },
     (List.range k).map (fun i => (snd.seq + i) % 65536))

/-- Translation of `media_stream::push_frame(data, data_len, flags)`
(src/unnamed/part_000 lines 73-81): delegates to the sender. -/
def push_frame (s : media_stream) (payload : List Nat) :
    rtp_error_t × media_stream × List Nat :=
  let r := sender_push_frame s.sender_ payload
  (r.1, { s with sender_ := r.2.1 }, r.2.2)

/-- A sequence of `push_frame` calls on one media stream; the second
component collects every sequence number emitted, in wire order. -/
def push_frames (s : media_stream) : List (List Nat) → media_stream × List Nat
  | [] => (s, [])
  | f :: fs =>
      let r := push_frame s f
      let rest := push_frames r.2.1 fs
      (rest.1, r.2.2 ++ rest.2)

/-- Modelled from the spec: `receiver::pull_frame` (receiver.cc is not in
the source tree).  Once a receive hook is installed, pull returns null
immediately; otherwise the oldest reassembled frame of the internal ring is
returned (null when the ring is empty). -/
def receiver_pull_frame (r : receiver_state) : Option Nat × receiver_state :=
  if r.recv_hook ≠ 0 then
    (none, r)
  else
    match r.frames with
    | [] => (none, r)
    | f :: rest => (some f, { r with frames := rest })

/-- Translation of `media_stream::pull_frame()` (src/unnamed/part_000
lines 83-86): delegates to the receiver. -/
def pull_frame (s : media_stream) : Option Nat × media_stream :=
  let r := receiver_pull_frame s.receiver_
  (r.1, { s with receiver_ := r.2 })

/-- Modelled from the spec: delivery of one reassembled frame by the
receive path.  With a hook installed the frame is dispatched to the hook
(invoking it exactly once); otherwise it is appended to the internal ring
for a later pull. -/
def deliver_frame (r : receiver_state) (f : Nat) : receiver_state :=
  if r.recv_hook ≠ 0 then
    { r with hook_calls := r.hook_calls + 1 }
  else
    { r with frames := r.frames ++ [f] }

/-- The receive path reassembling and delivering a list of frames in
order. -/
def deliver_frames (r : receiver_state) (fs : List Nat) : receiver_state :=
  fs.foldl deliver_frame r

/-- The state variables of the `kvz_rtp::rtcp` class (src/src/rtcp.hh
lines 114-173) that the claims touch.  Times (`tp_`, `tc_`, `tn_`) are in
milliseconds.  `participant_count` stands for the length of the
`participant_` vector. -/
structure rtcp_state where
  receiver_ : Bool
  tp_ : Nat
  tc_ : Nat
  tn_ : Nat
  pmembers_ : Nat
  members_ : Nat
  senders_ : Nat
  rtcp_bandwidth_ : Nat
  we_sent_ : Bool
  avg_rtcp_pkt_pize_ : Nat
  initial_ : Bool
  active_ : Bool
  participant_count : Nat
deriving DecidableEq, Repr

/-- The two kinds of report `rtcp::generate_report` can emit. -/
inductive report_kind where
  | sender_report
  | receiver_report
deriving DecidableEq, Repr

/-- Translation of `rtcp::generate_report` (src/src/rtcp.hh lines 36-42,
declaration and documentation; rtcp.cc is not in the source tree): per the source's
documentation of `receiver()`, a receiver report is generated when this
RTCP instance belongs to an RTP receiver, otherwise a sender report is
generated. -/
def generate_report (s : rtcp_state) : report_kind :=
  if s.receiver_ then report_kind.receiver_report else report_kind.sender_report

/-- Modelled from the spec: the deterministic RTCP report interval, in
milliseconds: `T = max(T_min, avg_rtcp_size * n / rtcp_bw)` with
`T_min = 5 s` (2.5 s while `initial_`), and `n = senders` when `we_sent`
and `senders < 0.25 * members`, else `members`.  (`avg * n / bw` is octets
over octets-per-second, scaled to ms.) -/
def rtcp_interval (s : rtcp_state) : Nat :=
  let t_min := if s.initial_ then 2500 else 5000
  let n := if s.we_sent_ ∧ s.senders_ * 4 < s.members_ then s.senders_ else s.members_
  max t_min (s.avg_rtcp_pkt_pize_ * n * 1000 / s.rtcp_bandwidth_)

/-- The state update performed when a scheduled report has just been
emitted, before `tn` is recomputed: `tp = tn` and `initial` cleared
(modelled from the spec's scheduling rule). -/
def after_emit (s : rtcp_state) : rtcp_state :=
  { s with tp_ := s.tn_, initial_ := false }

/-- Modelled from the spec: one tick of the RTCP runner at the scheduled
time `tn` (rtcp.cc is not in the source tree).  The report is produced by
`generate_report`; then `tp = tn`, `initial` is cleared, and `tn` is
recomputed as `tp + T`. -/
def rtcp_step (s : rtcp_state) : rtcp_state × report_kind :=
  ({ after_emit s with tn_ := (after_emit s).tp_ + rtcp_interval (after_emit s) },
   generate_report s)

/-- Modelled from the spec: `rtcp::terminate` (src/src/rtcp.hh lines
27-30; rtcp.cc is not in the source tree).  The first call on an active
session sets `active_` to false, emits one BYE to all participants and
joins the runner; per the spec's invariant a BYE is emitted at most once
per session termination, so a call on an inactive session emits nothing.
The second component counts BYE packets emitted by the call. -/
def terminate (s : rtcp_state) : rtcp_state × Nat :=
  if s.active_ then
    ({ s with active_ := false }, 1)
  else
    (s, 0)

/-- Iterated `terminate`: `n` successive calls, with the total number of
BYE packets emitted. -/
def terminate_times (s : rtcp_state) : Nat → rtcp_state × Nat
  | 0 => (s, 0)
  | n + 1 =>
      let r := terminate s
      let rest := terminate_times r.1 n
      (rest.1, r.2 + rest.2)

/-- Modelled from the spec: the state of a freshly started RTCP instance
(`rtcp::start`): session clock at 0, `initial_` and `active_` set, nothing
sent yet, the local member alone in the member count, and the first report
already scheduled at `tn = tp + T`. -/
def rtcp_init_state (r : Bool) (bw avg : Nat) : rtcp_state :=
  let s0 : rtcp_state :=
    { receiver_ := r, tp_ := 0, tc_ := 0, tn_ := 0, pmembers_ := 1,
      members_ := 1, senders_ := 0, rtcp_bandwidth_ := bw, we_sent_ := false,
      avg_rtcp_pkt_pize_ := avg, initial_ := true, active_ := true,
      participant_count := 0 }
  { s0 with tn_ := s0.tp_ + rtcp_interval s0 }

/-- Statistics-tracking updates performed between runner ticks (the
`check_sender` / `sender_inc_*` family and the advance of the session
clock): they may change `we_sent_`, the membership counts and the current
time, but touch neither `tp_`, `tn_` nor `initial_`. -/
def update_stats (s : rtcp_state) (ws : Bool) (m sen tc : Nat) : rtcp_state :=
  { s with we_sent_ := ws, members_ := m, senders_ := sen, tc_ := tc }

/-- The states the RTCP runner can reach: a freshly started instance,
followed by any interleaving of runner ticks, statistics updates and
termination. -/
inductive rtcp_reachable : rtcp_state → Prop where
  | start (r : Bool) (bw avg : Nat) : rtcp_reachable (rtcp_init_state r bw avg)
  | tick {s : rtcp_state} : rtcp_reachable s → rtcp_reachable (rtcp_step s).1
  | stats {s : rtcp_state} (ws : Bool) (m sen tc : Nat) :
      rtcp_reachable s → rtcp_reachable (update_stats s ws m sen tc)
  | term {s : rtcp_state} : rtcp_reachable s → rtcp_reachable (terminate s).1

/-- Recognizer for `setsockopt` socket operations. -/
def is_sockopt : sock_op → Bool
  | sock_op.op_setsockopt _ _ => true
  | _ => false

/-- A concrete media stream used by the witness theorems: fresh
configuration, no hooks installed, sequence counter near the 16-bit wrap. -/
def ms0 : media_stream :=
  { fmt_ := 0, flags_ := 0, src_port_ := 7000, dst_port_ := 7002,
    ctx_config_ := { flags := 0, ctx_values := fun _ => 0 },
    media_config_ := 0,
    sender_ := { seq := 65534, dealloc_hook := 0 },
    receiver_ := { recv_hook := 0, recv_hook_arg := 0, frames := [], hook_calls := 0 } }

/-- A concrete freshly started RTCP instance used by the witness
theorems. -/
def rtcp0 : rtcp_state := rtcp_init_state false 1000 200

/-- A receiver-side RTCP instance that has sent data since the previous
report: the configuration on which the claimed SR/RR criterion fails. -/
def rtcp_cx : rtcp_state :=
  { rtcp_init_state true 1000 200 with we_sent_ := true }

/-- The media stream after a non-null receive hook has been installed and
the receive path has then reassembled and delivered the frames `fs`. -/
def stream_after_hook_run (s : media_stream) (arg hook : Nat)
    (fs : List Nat) : media_stream :=
  let s1 := (install_receive_hook s arg hook).2
  { s1 with receiver_ := deliver_frames s1.receiver_ fs }

/-- The number of datagrams one `push_frame` call puts on the wire: none
for a rejected empty frame, one per fragment otherwise. -/
def frame_dgram_count (f : List Nat) : Nat :=
  if f = [] then 0 else (fragment 0 f).length

/-- Total number of datagrams produced by a sequence of frames. -/
def total_dgrams (fs : List (List Nat)) : Nat :=
  (fs.map frame_dgram_count).sum

/-- C3: `configure_ctx` returns `RTP_INVALID_VALUE` exactly on a negative
or out-of-range flag (or, in the two-argument form, a negative value); on
an in-range flag and non-negative value it stores the setting and returns
`RTP_OK`. -/
theorem configure_ctx_range_check (s : media_stream) (flag value : Int) :
    ((configure_ctx s flag value).1 = RTP_INVALID_VALUE ↔
      flag < 0 ∨ RCC_LAST ≤ flag ∨ value < 0)
  ∧ ((configure_ctx_flag s flag).1 = RTP_INVALID_VALUE ↔
      flag < 0 ∨ RCE_LAST ≤ flag)
  ∧ (0 ≤ flag → flag < RCC_LAST → 0 ≤ value →
      (configure_ctx s flag value).1 = RTP_OK ∧
      ((configure_ctx s flag value).2).ctx_config_.ctx_values flag = value)
  ∧ (0 ≤ flag → flag < RCE_LAST →
      (configure_ctx_flag s flag).1 = RTP_OK ∧
      ((configure_ctx_flag s flag).2).ctx_config_.flags
        = s.ctx_config_.flags ||| flag.toNat) := by
  unfold configure_ctx configure_ctx_flag
  refine ⟨?_, ?_, ?_, ?_⟩
  · split_ifs with h <;> simp [h]
  · split_ifs with h <;> simp [h]
  · intro h1 h2 h3
    split_ifs with h
    · omega
    · simp
  · intro h1 h2
    split_ifs with h
    · omega
    · simp

/-- Closed instance of `configure_ctx_range_check`: flag 2, value 7 is
accepted and stored. -/
theorem configure_ctx_range_check_witness :
    (configure_ctx ms0 2 7).1 = RTP_OK ∧
    ((configure_ctx ms0 2 7).2).ctx_config_.ctx_values 2 = 7 :=
  (configure_ctx_range_check ms0 2 7).2.2.1 (by decide) (by decide) (by decide)

/-- C4: `install_receive_hook` and `install_deallocation_hook` return
`RTP_INVALID_VALUE` exactly when the supplied function pointer is null;
with a non-null pointer the hook is installed and `RTP_OK` is returned. -/
theorem install_hook_null_check (s : media_stream) (arg hook : Nat) :
    ((install_receive_hook s arg hook).1 = RTP_INVALID_VALUE ↔ hook = 0)
  ∧ ((install_deallocation_hook s hook).1 = RTP_INVALID_VALUE ↔ hook = 0)
  ∧ (hook ≠ 0 →
      (install_receive_hook s arg hook).1 = RTP_OK ∧
      ((install_receive_hook s arg hook).2).receiver_.recv_hook = hook ∧
      (install_deallocation_hook s hook).1 = RTP_OK ∧
      ((install_deallocation_hook s hook).2).sender_.dealloc_hook = hook) := by
  unfold install_receive_hook install_deallocation_hook
  refine ⟨?_, ?_, ?_⟩
  · split_ifs with h <;> simp [h]
  · split_ifs with h <;> simp [h]
  · intro h
    split_ifs with h0
    · exact absurd h0 h
    · simp [receiver_install_recv_hook, sender_install_dealloc_hook]

/-- Closed instance of `install_hook_null_check`: hook pointer 5 with
argument 1 is installed on both sides. -/
theorem install_hook_null_check_witness :
    (install_receive_hook ms0 1 5).1 = RTP_OK ∧
    ((install_receive_hook ms0 1 5).2).receiver_.recv_hook = 5 ∧
    (install_deallocation_hook ms0 5).1 = RTP_OK ∧
    ((install_deallocation_hook ms0 5).2).sender_.dealloc_hook = 5 :=
  (install_hook_null_check ms0 1 5).2.2 (by decide)

/-- C10: both `configure_ctx` overloads are atomic on error: a call that
returns `RTP_INVALID_VALUE` leaves the stream (in particular its flags word
and every `ctx_values` entry) exactly as it was. -/
theorem configure_ctx_error_atomic (s : media_stream) (flag value : Int) :
    ((configure_ctx s flag value).1 = RTP_INVALID_VALUE →
      (configure_ctx s flag value).2 = s)
  ∧ ((configure_ctx_flag s flag).1 = RTP_INVALID_VALUE →
      (configure_ctx_flag s flag).2 = s) := by
  unfold configure_ctx configure_ctx_flag
  constructor
  · split_ifs <;> simp
  · split_ifs <;> simp

/-- Closed instance of `configure_ctx_error_atomic`: the rejected call with
flag -1 leaves the stream untouched. -/
theorem configure_ctx_error_atomic_witness :
    (configure_ctx ms0 (-1) 5).2 = ms0 :=
  (configure_ctx_error_atomic ms0 (-1) 5).1 (by decide)

/-- C9: `init_connection` performs no `setsockopt` operation at all — in
particular `SO_REUSEADDR` is never enabled before the socket is bound,
whatever the stream's configuration flags and whatever the outcomes of the
fallible socket calls. -/
theorem init_connection_no_reuseaddr (s : media_stream)
    (init_err bind_err : Option rtp_error_t) :
    ((init_connection s init_err bind_err).2).filter (fun op => is_sockopt op)
      = [] := by
  unfold init_connection
  cases init_err <;> cases bind_err <;> simp [is_sockopt]

/-- If the RTCP session is already inactive, further `terminate` calls emit
no BYE and leave the state unchanged. -/
theorem terminate_times_inactive (s : rtcp_state) (h : s.active_ = false) :
    ∀ n, (terminate_times s n).2 = 0 ∧ (terminate_times s n).1 = s := by
  intro n
  induction n with
  | zero => simp [terminate_times]
  | succ m ih => simpa [terminate_times, terminate, h] using ih

/-- C1: on an active RTCP session, the first `terminate` call clears
`active_` and emits exactly one BYE, and any sequence of `n ≥ 1`
`terminate` calls emits exactly one BYE in total. -/
theorem terminate_single_bye (s : rtcp_state) (n : Nat)
    (hact : s.active_ = true) (hn : 1 ≤ n) :
    (terminate s).1.active_ = false
  ∧ (terminate s).2 = 1
  ∧ (terminate_times s n).2 = 1 := by
  obtain ⟨m, rfl⟩ : ∃ m, n = m + 1 := ⟨n - 1, by omega⟩
  refine ⟨by simp [terminate, hact], by simp [terminate, hact], ?_⟩
  have h1 : terminate s = ({ s with active_ := false }, 1) := by
    simp [terminate, hact]
  have hrest :=
    (terminate_times_inactive { s with active_ := false } (by simp) m).1
  simp only [terminate_times, h1]
  omega

/-- Closed instance of `terminate_single_bye`: three `terminate` calls on a
freshly started instance emit one BYE. -/
theorem terminate_single_bye_witness :
    (terminate rtcp0).1.active_ = false
  ∧ (terminate rtcp0).2 = 1
  ∧ (terminate_times rtcp0 3).2 = 1 :=
  terminate_single_bye rtcp0 3 (by decide) (by decide)

/-- C2 counterexample: on a receiver-side instance that has sent data
since the previous report (`we_sent_ = true`), the tick still emits a
Receiver Report — the source dispatches on `receiver()`, not on whether
data was sent, so "SR if and only if the local side has sent data" fails
here. -/
theorem rtcp_step_we_sent_counterexample :
    rtcp_cx.we_sent_ = true
  ∧ rtcp_cx.receiver_ = true
  ∧ (rtcp_step rtcp_cx).2 = report_kind.receiver_report := by
  refine ⟨rfl, rfl, rfl⟩

/-- C2 (amended): at the scheduled report time the runner emits a Receiver
Report exactly when the RTCP instance belongs to an RTP receiver, and a
Sender Report otherwise; after emitting it sets `tp = tn`, clears
`initial`, and recomputes `tn` as `tp + T` of the updated state. -/
theorem rtcp_step_report (s : rtcp_state) :
    (rtcp_step s).2
      = (if s.receiver_ then report_kind.receiver_report
         else report_kind.sender_report)
  ∧ (rtcp_step s).1.tp_ = s.tn_
  ∧ (rtcp_step s).1.initial_ = false
  ∧ (rtcp_step s).1.tn_ = (rtcp_step s).1.tp_ + rtcp_interval (after_emit s) := by
  refine ⟨rfl, rfl, rfl, rfl⟩

/-- Once `initial_` is false the deterministic report interval is at least
the 5-second minimum. -/
theorem rtcp_interval_min (s : rtcp_state) (h : s.initial_ = false) :
    5000 ≤ rtcp_interval s := by
  unfold rtcp_interval
  simp only [h, if_false, Bool.false_eq_true]
  exact le_max_left _ _

/-- C5: in every reachable state of the RTCP runner `tp ≤ tn` holds, and
once `initial_` is false the scheduled gap `tn - tp` is at least the
5-second minimum report interval. -/
theorem rtcp_runner_interval_invariant (s : rtcp_state)
    (h : rtcp_reachable s) :
    s.tp_ ≤ s.tn_ ∧ (s.initial_ = false → 5000 ≤ s.tn_ - s.tp_) := by
  induction h with
  | start r bw avg =>
      constructor
      · simp [rtcp_init_state]
      · intro hini
        simp [rtcp_init_state] at hini
  | tick h ih =>
      rename_i s'
      constructor
      · simp only [rtcp_step, after_emit]
        omega
      · intro hini
        have hint : 5000 ≤ rtcp_interval
            { s' with tp_ := s'.tn_, initial_ := false } :=
          rtcp_interval_min _ rfl
        simp only [rtcp_step, after_emit]
        omega
  | stats ws m sen tc h ih => simpa [update_stats] using ih
  | term h ih =>
      unfold terminate
      split_ifs <;> simpa using ih

/-- Closed instance of `rtcp_runner_interval_invariant` at a reachable
state: one tick after a fresh start. -/
theorem rtcp_runner_interval_invariant_witness :
    (rtcp_step (rtcp_init_state false 1000 200)).1.tp_
        ≤ (rtcp_step (rtcp_init_state false 1000 200)).1.tn_
  ∧ ((rtcp_step (rtcp_init_state false 1000 200)).1.initial_ = false →
      5000 ≤ (rtcp_step (rtcp_init_state false 1000 200)).1.tn_
               - (rtcp_step (rtcp_init_state false 1000 200)).1.tp_) :=
  rtcp_runner_interval_invariant _
    (rtcp_reachable.tick (rtcp_reachable.start false 1000 200))

/-- Concatenating the chunks produced by `chunk_run` gives back the input,
for any sufficient fuel. -/
theorem chunk_run_join (fuel : Nat) :
    ∀ b : List Nat, b.length ≤ fuel →
      (chunk_run fuel b).foldr (· ++ ·) [] = b := by
  induction fuel with
  | zero =>
      intro b hb
      have hb0 : b = [] := List.eq_nil_of_length_eq_zero (Nat.le_zero.mp hb)
      subst hb0
      rfl
  | succ m ih =>
      intro b hb
      match b with
      | [] => rfl
      | a :: rest =>
          simp only [chunk_run, List.foldr_cons]
          rw [ih ((a :: rest).drop MAX_PAYLOAD)
              (by simp only [List.length_drop, List.length_cons, MAX_PAYLOAD]
                  simp only [List.length_cons] at hb
                  omega)]
          exact List.take_append_drop _ _

/-- The fragment-unit wrapper carries the chunks unchanged as payloads. -/
theorem fu_wrap_map_payload (t : Nat) :
    ∀ (cs : List (List Nat)) (first : Bool),
      (fu_wrap t first cs).map (fun d => d.payload) = cs := by
  intro cs
  induction cs with
  | nil => intro first; rfl
  | cons c rest ih =>
      intro first
      cases rest with
      | nil => rfl
      | cons c2 rest2 => simp [fu_wrap, ih]

/-- C7: fragmenting a byte string of length at most 10 MiB and feeding the
produced datagrams of the frame, in order, through the depacketizer yields
the byte string back exactly. -/
theorem fragment_depacketize_roundtrip (t : Nat) (b : List Nat)
    (h : b.length ≤ 10485760) :
    depacketize (fragment t b) = b := by
  unfold fragment depacketize
  split_ifs with hlen
  · simp
  · rw [fu_wrap_map_payload]
    unfold chunks_of
    rw [chunk_run_join b.length b le_rfl]

/-- Closed instance of `fragment_depacketize_roundtrip` on a small
frame. -/
theorem fragment_depacketize_roundtrip_witness :
    depacketize (fragment 7 [1, 2, 3]) = [1, 2, 3] :=
  fragment_depacketize_roundtrip 7 [1, 2, 3] (by decide)

/-- Delivering frames never changes which receive hook is installed. -/
theorem deliver_frames_recv_hook (fs : List Nat) :
    ∀ r : receiver_state, (deliver_frames r fs).recv_hook = r.recv_hook := by
  induction fs with
  | nil => intro r; rfl
  | cons f rest ih =>
      intro r
      have hstep : deliver_frames r (f :: rest)
          = deliver_frames (deliver_frame r f) rest := rfl
      rw [hstep, ih]
      unfold deliver_frame
      split_ifs <;> rfl

/-- With a hook installed, delivering frames invokes the hook exactly once
per frame. -/
theorem deliver_frames_hook_calls (fs : List Nat) :
    ∀ r : receiver_state, r.recv_hook ≠ 0 →
      (deliver_frames r fs).hook_calls = r.hook_calls + fs.length := by
  induction fs with
  | nil => intro r h; simp [deliver_frames]
  | cons f rest ih =>
      intro r h
      have hd : deliver_frame r f = { r with hook_calls := r.hook_calls + 1 } := by
        simp [deliver_frame, h]
      have hstep : deliver_frames r (f :: rest)
          = deliver_frames (deliver_frame r f) rest := rfl
      rw [hstep, ih (deliver_frame r f) (by simp [hd]; exact h)]
      simp [hd]
      omega

/-- C8: once a non-null receive hook is installed on a media stream, a
`pull_frame` call returns null immediately — however many frames the
receive path has delivered since — and the hook has been invoked exactly
once per reassembled frame. -/
theorem hook_exclusive (s : media_stream) (arg hook : Nat) (fs : List Nat)
    (h : hook ≠ 0) :
    (pull_frame (stream_after_hook_run s arg hook fs)).1 = none
  ∧ (stream_after_hook_run s arg hook fs).receiver_.hook_calls
      = s.receiver_.hook_calls + fs.length := by
  have hinst : (install_receive_hook s arg hook).2
      = { s with receiver_ := receiver_install_recv_hook s.receiver_ arg hook } := by
    simp [install_receive_hook, h]
  have hr : (receiver_install_recv_hook s.receiver_ arg hook).recv_hook = hook := rfl
  constructor
  · have hh := deliver_frames_recv_hook fs
      (receiver_install_recv_hook s.receiver_ arg hook)
    simp [stream_after_hook_run, hinst, pull_frame, receiver_pull_frame, hh, hr, h]
  · have hc := deliver_frames_hook_calls fs
      (receiver_install_recv_hook s.receiver_ arg hook) (by simp [hr, h])
    simpa [stream_after_hook_run, hinst, receiver_install_recv_hook] using hc

/-- Closed instance of `hook_exclusive`: after installing hook pointer 5
and delivering two frames, pull returns null and the hook ran twice. -/
theorem hook_exclusive_witness :
    (pull_frame (stream_after_hook_run ms0 1 5 [10, 11])).1 = none
  ∧ (stream_after_hook_run ms0 1 5 [10, 11]).receiver_.hook_calls
      = ms0.receiver_.hook_calls + [10, 11].length :=
  hook_exclusive ms0 1 5 [10, 11] (by decide)

/-- Pushing a sequence of frames from a sender whose counter is `q mod
2^16` emits exactly the sequence numbers `q, q+1, …` (mod 2^16), one per
datagram, and leaves the counter at `q + M` (mod 2^16). -/
theorem push_frames_seq_consecutive (fs : List (List Nat)) :
    ∀ (s : media_stream) (q : Nat), s.sender_.seq = q % 65536 →
      (push_frames s fs).2
        = (List.range (total_dgrams fs)).map (fun i => (q + i) % 65536)
      ∧ (push_frames s fs).1.sender_.seq = (q + total_dgrams fs) % 65536 := by
  induction fs with
  | nil =>
      intro s q hq
      refine ⟨rfl, ?_⟩
      simpa [push_frames, total_dgrams] using hq
  | cons f rest ih =>
      intro s q hq
      have hpushes : push_frames s (f :: rest)
          = ((push_frames (push_frame s f).2.1 rest).1,
             (push_frame s f).2.2 ++ (push_frames (push_frame s f).2.1 rest).2) := rfl
      by_cases hf : f = []
      · subst hf
        have hpf : push_frame s [] = (RTP_INVALID_VALUE, s, []) := by
          simp [push_frame, sender_push_frame]
        have htot : total_dgrams ([] :: rest) = total_dgrams rest := by
          simp [total_dgrams, frame_dgram_count]
        rw [hpushes, hpf, htot]
        have hrec := ih s q hq
        exact ⟨by simpa using hrec.1, hrec.2⟩
      · have hpf : push_frame s f
            = (RTP_OK,
               { s with sender_ := { s.sender_ with
                   seq := (s.sender_.seq + (fragment 0 f).length) % 65536 } },
               (List.range ((fragment 0 f).length)).map
                 (fun i => (s.sender_.seq + i) % 65536)) := by
          simp [push_frame, sender_push_frame, hf]
        have hseq : (push_frame s f).2.1.sender_.seq
            = (q + (fragment 0 f).length) % 65536 := by
          rw [hpf, hq]
          exact Nat.mod_add_mod q 65536 (fragment 0 f).length
        have hrec := ih (push_frame s f).2.1 (q + (fragment 0 f).length) hseq
        have htot : total_dgrams (f :: rest)
            = (fragment 0 f).length + total_dgrams rest := by
          simp [total_dgrams, frame_dgram_count, hf]
        constructor
        · rw [hpushes]
          show (push_frame s f).2.2 ++ (push_frames (push_frame s f).2.1 rest).2
              = _
          rw [hrec.1, hpf, htot, List.range_add, List.map_append, List.map_map]
          congr 1
          · apply List.map_congr_left
            intro a ha
            rw [hq]
            exact Nat.mod_add_mod q 65536 a
          · apply List.map_congr_left
            intro a ha
            simp only [Function.comp]
            omega
        · rw [hpushes]
          show (push_frames (push_frame s f).2.1 rest).1.sender_.seq = _
          rw [hrec.2, htot]
          congr 1
          omega

/-- C6: the wire sequence numbers of the `M` datagrams produced by any
sequence of `push_frame` calls on one media stream are
`s, s+1, …, s+M-1` (mod 2^16), with `s` the sender's sequence counter
before the first call. -/
theorem push_frame_seq_monotonic (s : media_stream) (fs : List (List Nat))
    (h : s.sender_.seq < 65536) :
    (push_frames s fs).2
      = (List.range ((push_frames s fs).2).length).map
          (fun i => (s.sender_.seq + i) % 65536) := by
  have hq : s.sender_.seq = s.sender_.seq % 65536 := (Nat.mod_eq_of_lt h).symm
  have key := push_frames_seq_consecutive fs s s.sender_.seq hq
  rw [key.1]
  simp

/-- Closed instance of `push_frame_seq_monotonic`: three one-byte frames
pushed from a counter two short of the 16-bit wrap. -/
theorem push_frame_seq_monotonic_witness :
    (push_frames ms0 [[1], [2], [3]]).2
      = (List.range ((push_frames ms0 [[1], [2], [3]]).2).length).map
          (fun i => (ms0.sender_.seq + i) % 65536) :=
  push_frame_seq_monotonic ms0 [[1], [2], [3]] (by decide)

end KvzRtp
